import Mathlib

/-
Verification of the planning-ingestion agent (apps/agents/planning-ingestion).

The development shallowly embeds the Python sources:
  - config.py              : static source list and enums,
  - convex_client.py       : metadata-store client (retry loop, hash helper),
  - tools/firecrawl_tool.py: hosted-API scraper (retry loop, validation),
  - tools/playwright_scraper.py : browser scraper (validation, error wrapping),
  - agent.py               : the sync orchestrator.
External collaborators (the Convex backend, the Gemini index, the browser,
the network) are modelled as oracles supplied through an environment record;
the Convex backend's document table, whose TypeScript implementation is not
part of this repository, is modelled from the spec where marked.
-/

namespace Mkedev

/-! ## Python string helpers

Auxiliary functions mirroring the Python string operations used by the
sources (`str.strip`, `str.startswith`, slicing, `in`, `str.lower`),
written over the character list so that closed instances reduce in the
kernel. -/

/-- Mirrors Python `str.strip()`: remove leading and trailing whitespace. -/
def pyStrip (s : String) : String :=
  ⟨((s.data.dropWhile Char.isWhitespace).reverse.dropWhile Char.isWhitespace).reverse⟩

/-- Mirrors Python `str.startswith(p)`. -/
def pyStartsWith (s p : String) : Bool := p.data.isPrefixOf s.data

/-- Mirrors Python slicing `s[n:]`. -/
def pyDrop (s : String) (n : Nat) : String := ⟨s.data.drop n⟩

/-- Helper for substring search over character lists. -/
def pyContainsAux (needle : List Char) : List Char → Bool
  | [] => needle.isEmpty
  | h :: t => needle.isPrefixOf (h :: t) || pyContainsAux needle t

/-- Mirrors Python `sub in s`. -/
def pyContains (s sub : String) : Bool := pyContainsAux sub.data s.data

/-- Mirrors Python `str.lower()`. -/
def pyLower (s : String) : String := ⟨s.data.map Char.toLower⟩

/-- Mirrors Python truthiness of `Optional[str]`: `None` and `""` are falsy. -/
def pyTruthy : Option String → Bool
  | none => false
  | some s => !s.isEmpty

/-- Mirrors Python `f"{x}"` on an `Optional[str]`: `None` prints as "None". -/
def pyStr : Option String → String
  | none => "None"
  | some s => s

/-! ## Data model (config.py, agent.py, convex_client.py dataclasses) -/

/-- Embeds `config.ContentType`. -/
inductive ContentType
  | html
  | pdf
deriving DecidableEq, Repr

/-- Embeds `ContentType.value`. -/
def ContentType.value : ContentType → String
  | .html => "html"
  | .pdf => "pdf"

/-- Embeds `config.SyncFrequency`. -/
inductive SyncFrequency
  | weekly
  | monthly
deriving DecidableEq, Repr

/-- Embeds `SyncFrequency.value`. -/
def SyncFrequency.value : SyncFrequency → String
  | .weekly => "weekly"
  | .monthly => "monthly"

/-- Embeds `config.PlanningSource`. -/
structure PlanningSource where
  id : String
  url : String
  title : String
  content_type : ContentType
  sync_frequency : SyncFrequency
  category : String
  description : Option String := none
deriving DecidableEq, Repr

/-- Embeds `playwright_scraper.ScrapeResult` (the scraper result consumed by
the agent; the firecrawl variant carries the same fields used here). -/
structure ScrapeResult where
  url : String
  success : Bool
  markdown : Option String := none
  html : Option String := none
  title : Option String := none
  error : Option String := none
deriving DecidableEq, Repr

/-- Embeds `gemini_filesearch.UploadResult`. -/
structure UploadResult where
  success : Bool
  file_uri : Option String := none
  document_name : Option String := none
  error : Option String := none
deriving DecidableEq, Repr

/-- Embeds `agent.SyncResult`. -/
structure SyncResult where
  source_id : String
  success : Bool
  action : String
  message : Option String := none
deriving DecidableEq, Repr

/-- Embeds `agent.SyncSummary`. -/
structure SyncSummary where
  total : Nat
  created : Nat
  updated : Nat
  skipped : Nat
  failed : Nat
  results : List SyncResult
deriving DecidableEq, Repr

/-- Embeds the persisted document record (the fields of
`convex_client.ConvexDocument` / the upsert payload of §6). -/
structure ConvexDoc where
  sourceId : String
  sourceUrl : String
  title : String
  contentType : String
  category : String
  syncFrequency : String
  contentHash : String
  status : String
  markdownContent : Option String := none
  pdfStorageId : Option String := none
  geminiFileUri : Option String := none
  fileSearchStoreId : Option String := none
  errorMessage : Option String := none
deriving DecidableEq, Repr

/-- Result of `GET /documents/check-hash` as consumed by the agent
(JSON keys `exists` and `changed`; `exists` is a Lean keyword, hence
the field name `existsFlag`). -/
structure HashCheck where
  existsFlag : Bool
  changed : Bool
deriving DecidableEq, Repr

/-- Embeds `convex_client.compute_content_hash`. The source computes an MD5
hex digest of the UTF-8 encoding of the content; since no claim depends on
the digest algorithm itself, the digest is modelled as an injective
rendering of the same UTF-8 byte sequence (deterministic in the canonical
byte encoding, exactly as the source's digest is). -/
def compute_content_hash (content : String) : String :=
  toString (content.toUTF8.data.toList)

/-! ## Metadata store backend

The Convex HTTP actions live in `convex/http/planningIngestion.ts`, which is
not part of this repository's sources; their document table semantics are
modelled from the spec (§4.5, §6). -/

/-- The metadata store's document table: records keyed by `sourceId`. -/
abbrev Store := List ConvexDoc

/-- Modelled from the spec: `GET /documents?sourceId=` — look a record up by
source id; absence surfaces as "not found". -/
def storeGet (st : Store) (source_id : String) : Option ConvexDoc :=
  st.find? (fun d => d.sourceId == source_id)

/-- Modelled from the spec: `POST /documents/upsert` — create the record when
absent, update it when present; unspecified optional fields do not clear
previously stored values. -/
def storeUpsert (st : Store) (doc : ConvexDoc) : Store :=
  match st with
  | [] => [doc]
  | d :: rest =>
    if d.sourceId == doc.sourceId then
      { doc with
        markdownContent := doc.markdownContent <|> d.markdownContent
        pdfStorageId := doc.pdfStorageId <|> d.pdfStorageId
        geminiFileUri := d.geminiFileUri
        fileSearchStoreId := d.fileSearchStoreId
        errorMessage := d.errorMessage } :: rest
    else
      d :: storeUpsert rest doc

/-- Modelled from the spec: `GET /documents/check-hash?sourceId=&contentHash=`
— `exists` is record presence, `changed` compares the stored hash with the
candidate (not meaningful when the record is absent). -/
def storeCheckHash (st : Store) (source_id content_hash : String) : HashCheck :=
  match storeGet st source_id with
  | none => { existsFlag := false, changed := false }
  | some d => { existsFlag := true, changed := d.contentHash != content_hash }

/-- Modelled from the spec: `POST /documents/status` — update the status
fields of the record when present, acknowledge without effect otherwise. -/
def storeUpdateStatus (st : Store) (source_id status : String)
    (error_message gemini_file_uri file_search_store_id : Option String) : Store :=
  match st with
  | [] => []
  | d :: rest =>
    if d.sourceId == source_id then
      { d with
        status := status
        errorMessage := error_message <|> d.errorMessage
        geminiFileUri := gemini_file_uri <|> d.geminiFileUri
        fileSearchStoreId := file_search_store_id <|> d.fileSearchStoreId } :: rest
    else
      d :: storeUpdateStatus rest source_id status error_message gemini_file_uri file_search_store_id

/-! ## Effect model for the orchestrator

Each outbound call of `agent.py` is logged in a trace and answered either by
the modelled store or by the environment oracle; any call may raise, which
the monad propagates exactly as a Python exception does (state mutated
before the raise persists). -/

/-- One outbound collaborator call of the orchestrator, as logged. -/
inductive Call
  | scrapePage (url : String)
  | scrapePdf (url : String)
  | getDocument (source_id : String)
  | checkHash (source_id content_hash : String)
  | upsertDocument (source_id : String)
  | updateStatus (source_id status : String)
  | getOrCreateStore
  | uploadPdf (display_name : String)
  | uploadMarkdown (display_name : String)
deriving DecidableEq, Repr

/-- Oracle answering the collaborator calls that are external to the agent:
the two scraper methods, the Gemini store lookup and uploads, and injected
failures for each metadata-store call (`some msg` makes the call raise). -/
structure Env where
  scrapePage : String → Except String ScrapeResult
  scrapePdf : String → Except String ScrapeResult
  getDocumentErr : String → Option String
  checkHashErr : String → Option String
  upsertErr : String → Option String
  updateStatusErr : String → String → Option String
  getOrCreateStore : Except String String
  uploadPdf : String → String → Except String UploadResult
  uploadMarkdown : String → Option String → Except String UploadResult

/-- Mutable state of a run: the backend document table, the agent's cached
File Search store name (`agent._store_name`), and the call trace. -/
structure AgentState where
  store : Store
  storeName : Option String := none
  trace : List Call := []
deriving Repr

/-- State-and-exception monad for the orchestrator: Python side effects
survive a raise, so the state is returned on both branches. -/
def M (α : Type) := AgentState → Except String α × AgentState

/-- Monad unit for `M`. -/
def M.pure {α : Type} (a : α) : M α := fun s => (Except.ok a, s)

/-- Monad sequencing for `M`: an exception short-circuits, keeping the
state reached so far. -/
def M.bind {α β : Type} (x : M α) (f : α → M β) : M β := fun s =>
  match x s with
  | (Except.ok a, s') => f a s'
  | (Except.error e, s') => (Except.error e, s')

instance : Monad M where
  pure := M.pure
  bind := M.bind

/-- Embeds a Python `try`/`except Exception` block. -/
def M.tryCatch {α : Type} (x : M α) (handler : String → M α) : M α := fun s =>
  match x s with
  | (Except.ok a, s') => (Except.ok a, s')
  | (Except.error e, s') => handler e s'

/-- Embeds `ConvexHTTPClient.get_document` as seen by the agent: the call is
logged, then either raises (injected transport failure) or returns the
backend lookup. -/
def get_document (env : Env) (source_id : String) : M (Option ConvexDoc) := fun s =>
  let s' := { s with trace := s.trace ++ [Call.getDocument source_id] }
  match env.getDocumentErr source_id with
  | some e => (Except.error e, s')
  | none => (Except.ok (storeGet s.store source_id), s')

/-- Embeds `ConvexHTTPClient.check_content_hash` as seen by the agent. -/
def check_content_hash (env : Env) (source_id content_hash : String) : M HashCheck := fun s =>
  let s' := { s with trace := s.trace ++ [Call.checkHash source_id content_hash] }
  match env.checkHashErr source_id with
  | some e => (Except.error e, s')
  | none => (Except.ok (storeCheckHash s.store source_id content_hash), s')

/-- Embeds `ConvexHTTPClient.upsert_document` as seen by the agent. -/
def upsert_document (env : Env) (source_id source_url title content_type category
    sync_frequency content_hash status : String)
    (markdown_content pdf_storage_id : Option String) : M Unit := fun s =>
  let s' := { s with trace := s.trace ++ [Call.upsertDocument source_id] }
  match env.upsertErr source_id with
  | some e => (Except.error e, s')
  | none =>
    let doc : ConvexDoc :=
      { sourceId := source_id, sourceUrl := source_url, title := title
        contentType := content_type, category := category
        syncFrequency := sync_frequency, contentHash := content_hash
        status := status, markdownContent := markdown_content
        pdfStorageId := pdf_storage_id }
    (Except.ok (), { s' with store := storeUpsert s.store doc })

/-- Embeds `ConvexHTTPClient.update_status` as seen by the agent. -/
def update_status (env : Env) (source_id status : String)
    (error_message gemini_file_uri file_search_store_id : Option String) : M Unit := fun s =>
  let s' := { s with trace := s.trace ++ [Call.updateStatus source_id status] }
  match env.updateStatusErr source_id status with
  | some e => (Except.error e, s')
  | none =>
    let st' := storeUpdateStatus s.store source_id status
      error_message gemini_file_uri file_search_store_id
    (Except.ok (), { s' with store := st' })

/-- Embeds `PlaywrightScraper.scrape_page` as seen by the agent (the
scraper's internals are verified separately below). -/
def scrape_page (env : Env) (url : String) : M ScrapeResult := fun s =>
  (env.scrapePage url, { s with trace := s.trace ++ [Call.scrapePage url] })

/-- Embeds `PlaywrightScraper.scrape_pdf` as seen by the agent. -/
def scrape_pdf (env : Env) (url : String) : M ScrapeResult := fun s =>
  (env.scrapePdf url, { s with trace := s.trace ++ [Call.scrapePdf url] })

/-- Embeds `PlanningIngestionAgent._get_store_name`: return the cached store
name, or resolve it once through `get_or_create_store` and cache it. -/
def get_store_name (env : Env) : M String := fun s =>
  match s.storeName with
  | some n => (Except.ok n, s)
  | none =>
    let s' := { s with trace := s.trace ++ [Call.getOrCreateStore] }
    match env.getOrCreateStore with
    | Except.ok n => (Except.ok n, { s' with storeName := some n })
    | Except.error e => (Except.error e, s')

/-- Embeds `GeminiFileSearchTool.upload_pdf` as seen by the agent. -/
def upload_pdf (env : Env) (display_name payload : String) : M UploadResult := fun s =>
  (env.uploadPdf display_name payload,
   { s with trace := s.trace ++ [Call.uploadPdf display_name] })

/-- Embeds `GeminiFileSearchTool.upload_markdown` as seen by the agent. -/
def upload_markdown (env : Env) (display_name : String) (content : Option String) :
    M UploadResult := fun s =>
  (env.uploadMarkdown display_name content,
   { s with trace := s.trace ++ [Call.uploadMarkdown display_name] })

/-! ## The sync orchestrator (agent.py) -/

/-- Mirrors Python `a or b` on an optional title (`result.title or source.title`). -/
def pyOrStr (o : Option String) (dflt : String) : String :=
  if pyTruthy o then o.getD "" else dflt

/-- Embeds the `try` body of `PlanningIngestionAgent.sync_source`
(agent.py lines 114-226), statement by statement. -/
def sync_source_body (env : Env) (source : PlanningSource) (force : Bool) : M SyncResult := do
  let result ←
    if source.content_type = ContentType.html then scrape_page env source.url
    else scrape_pdf env source.url
  if !result.success then
    let existing ← get_document env source.id
    if existing.isSome then
      let _ ← update_status env source.id "error" result.error none none
    return { source_id := source.id, success := false, action := "error",
             message := result.error }
  let content_hash := compute_content_hash (result.markdown.getD "")
  if !force then
    let hash_check ← check_content_hash env source.id content_hash
    if hash_check.existsFlag && !hash_check.changed then
      return { source_id := source.id, success := true, action := "skipped",
               message := some "Content unchanged" }
  let _ ← upsert_document env source.id source.url (pyOrStr result.title source.title)
    source.content_type.value source.category source.sync_frequency.value
    content_hash "crawled" result.markdown none
  let store_name ← get_store_name env
  let is_pdf_content :=
    match result.markdown with
    | some m => pyStartsWith m "PDF_BASE64:"
    | none => false
  let upload_result ←
    if is_pdf_content then
      upload_pdf env s!"{source.category}/{source.id}.pdf"
        (pyDrop (result.markdown.getD "") ("PDF_BASE64:".length))
    else
      upload_markdown env s!"{source.category}/{source.id}" result.markdown
  if !upload_result.success then
    let msg := s!"Gemini upload failed: {pyStr upload_result.error}"
    let _ ← update_status env source.id "error" (some msg) none none
    return { source_id := source.id, success := false, action := "error",
             message := some msg }
  let _ ← update_status env source.id "indexed" none upload_result.file_uri none
  let existing ← get_document env source.id
  let action := if existing.isSome then "updated" else "created"
  let _ := store_name
  return { source_id := source.id, success := true, action := action,
           message := some s!"Successfully {action}" }

/-- Embeds the `except Exception` handler of `sync_source`
(agent.py lines 228-239): a best-effort error status update, then a
`Failed` outcome. The update is not itself guarded, so its failure
propagates, exactly as in the source. -/
def sync_source_handler (env : Env) (source : PlanningSource) (e : String) : M SyncResult := do
  let _ ← update_status env source.id "error" (some e) none none
  pure { source_id := source.id, success := false, action := "error", message := some e }

/-- Embeds `PlanningIngestionAgent.sync_source`. -/
def sync_source (env : Env) (source : PlanningSource) (force : Bool) : M SyncResult :=
  M.tryCatch (sync_source_body env source force) (sync_source_handler env source)

/-- Embeds the sequential per-source loop shared by `sync_all` and
`sync_by_frequency` (agent.py lines 259-261 / 284-286). -/
def sync_list (env : Env) (sources : List PlanningSource) (force : Bool) :
    M (List SyncResult) :=
  match sources with
  | [] => pure []
  | s :: rest => do
    let r ← sync_source env s force
    let rs ← sync_list env rest force
    pure (r :: rs)

/-- Embeds the `SyncSummary` construction shared by `sync_all` and
`sync_by_frequency` (agent.py lines 263-270 / 288-295). -/
def mk_summary (results : List SyncResult) : SyncSummary :=
  { total := results.length
    created := results.countP (fun r => r.action == "created")
    updated := results.countP (fun r => r.action == "updated")
    skipped := results.countP (fun r => r.action == "skipped")
    failed := results.countP (fun r => r.action == "error")
    results := results }

/-- Embeds `config.PLANNING_SOURCES` (the seven active entries; the PDF
entries are commented out in the source). -/
def PLANNING_SOURCES : List PlanningSource :=
  [ { id := "home-building-sites"
      url := "https://city.milwaukee.gov/DCD/CityRealEstate/HomeBuildingSites"
      title := "Home Building Sites"
      content_type := ContentType.html
      sync_frequency := SyncFrequency.weekly
      category := "home-building"
      description := some "City-owned lots available for home construction" }
  , { id := "vacant-side-lots"
      url := "https://city.milwaukee.gov/DCD/CityRealEstate/VacantLotHandbook/VacantLots"
      title := "Vacant Side Lots"
      content_type := ContentType.html
      sync_frequency := SyncFrequency.weekly
      category := "vacant-lots"
      description := some "Vacant side lots available for purchase by adjacent owners" }
  , { id := "commercial-properties-main"
      url := "https://city.milwaukee.gov/DCD/CityRealEstate/CRE"
      title := "Commercial Real Estate - Main"
      content_type := ContentType.html
      sync_frequency := SyncFrequency.weekly
      category := "commercial"
      description := some "City-owned commercial properties for sale or lease" }
  , { id := "overlay-zone-sp"
      url := "https://city.milwaukee.gov/OverlayZones/SP"
      title := "Overlay Zone - Strategic Planning"
      content_type := ContentType.html
      sync_frequency := SyncFrequency.weekly
      category := "overlay-zones"
      description := some "Strategic Planning overlay zone information" }
  , { id := "overlay-zone-diz"
      url := "https://city.milwaukee.gov/OverlayZones/DIZ"
      title := "Overlay Zone - Design Innovation Zone"
      content_type := ContentType.html
      sync_frequency := SyncFrequency.weekly
      category := "overlay-zones"
      description := some "Design Innovation Zone overlay information" }
  , { id := "overlay-zone-msp"
      url := "https://city.milwaukee.gov/OverlayZones/MSP"
      title := "Overlay Zone - Master Site Plan"
      content_type := ContentType.html
      sync_frequency := SyncFrequency.weekly
      category := "overlay-zones"
      description := some "Master Site Plan overlay information" }
  , { id := "design-guidelines"
      url := "https://city.milwaukee.gov/DCD/Planning/UrbanDesign/DesignGuidelines"
      title := "Urban Design Guidelines"
      content_type := ContentType.html
      sync_frequency := SyncFrequency.weekly
      category := "design-guidelines"
      description := some "City design guidelines for development projects" } ]

/-- Embeds `PlanningIngestionAgent.sync_by_frequency`. -/
def sync_by_frequency (env : Env) (frequency : SyncFrequency) (force : Bool) :
    M SyncSummary := do
  let results ← sync_list env
    (PLANNING_SOURCES.filter (fun s => s.sync_frequency == frequency)) force
  pure (mk_summary results)

/-- Embeds `PlanningIngestionAgent.sync_all`. -/
def sync_all (env : Env) (force : Bool) : M SyncSummary := do
  let results ← sync_list env PLANNING_SOURCES force
  pure (mk_summary results)

/-- Embeds `PlanningIngestionAgent.sync_single`. -/
def sync_single (env : Env) (source_id : String) (force : Bool) : M SyncResult :=
  match PLANNING_SOURCES.find? (fun s => s.id == source_id) with
  | none => pure { source_id := source_id, success := false, action := "error",
                   message := some s!"Source not found: {source_id}" }
  | some source => sync_source env source force

/-! ## The resilient HTTP retry loops
(`ConvexHTTPClient._retry_request`, `FirecrawlTool._retry_request`) -/

/-- What the network returns for one request: an HTTP response (with the
optional `Retry-After` header, read only by the firecrawl loop) or a
connection-level failure (`httpx.RequestError`). -/
inductive HTTPOutcome
  | response (status : Nat) (retryAfter : Option Nat)
  | requestError (msg : String)
deriving DecidableEq, Repr

/-- The exceptions the retry loops store and re-raise. -/
inductive HTTPError
  | statusError (status : Nat)
  | requestError (msg : String)
deriving DecidableEq, Repr

/-- Embeds the loop of `ConvexHTTPClient._retry_request` (convex_client.py
lines 92-111). `respond i` is the network outcome of request number `i`.
Returns the result (`Except.error` embeds `raise`; `error none` embeds
Python's `raise None` when the loop was never entered), the number of
requests issued, and the list of backoff sleeps in seconds. -/
def convexRetryGo (respond : Nat → HTTPOutcome) (maxRetries : Nat) :
    Nat → Nat → Option HTTPError → List Nat →
    Except (Option HTTPError) Nat × Nat × List Nat
  | 0, attempt, lastError, sleeps => (Except.error lastError, attempt, sleeps)
  | remaining + 1, attempt, lastError, sleeps =>
    match respond attempt with
    | HTTPOutcome.response status _ =>
      if 400 ≤ status then
        if status < 500 then
          (Except.error (some (HTTPError.statusError status)), attempt + 1, sleeps)
        else
          let sleeps' := if attempt < maxRetries - 1 then sleeps ++ [2 ^ attempt] else sleeps
          convexRetryGo respond maxRetries remaining (attempt + 1)
            (some (HTTPError.statusError status)) sleeps'
      else
        (Except.ok status, attempt + 1, sleeps)
    | HTTPOutcome.requestError msg =>
      let sleeps' := if attempt < maxRetries - 1 then sleeps ++ [2 ^ attempt] else sleeps
      convexRetryGo respond maxRetries remaining (attempt + 1)
        (some (HTTPError.requestError msg)) sleeps'

/-- Embeds `ConvexHTTPClient._retry_request` with its default
`max_retries=3`; `remaining` starts at `max_retries` (the `range` bound),
`attempt` at 0. -/
def convex_retry_request (respond : Nat → HTTPOutcome) (max_retries : Nat := 3) :
    Except (Option HTTPError) Nat × Nat × List Nat :=
  convexRetryGo respond max_retries max_retries 0 none []

/-- Embeds the loop of `FirecrawlTool._retry_request` (firecrawl_tool.py
lines 82-107): a 429 response sleeps for the `Retry-After` hint (default 60)
and continues without touching `last_error`; other statuses behave as in the
convex loop. The wall-clock rate-limit pause of `_rate_limit` is timing
only and not part of the sleeps list. -/
def firecrawlRetryGo (respond : Nat → HTTPOutcome) (maxRetries : Nat) :
    Nat → Nat → Option HTTPError → List Nat →
    Except (Option HTTPError) Nat × Nat × List Nat
  | 0, attempt, lastError, sleeps => (Except.error lastError, attempt, sleeps)
  | remaining + 1, attempt, lastError, sleeps =>
    match respond attempt with
    | HTTPOutcome.response status retryAfter =>
      if status = 429 then
        firecrawlRetryGo respond maxRetries remaining (attempt + 1) lastError
          (sleeps ++ [retryAfter.getD 60])
      else if 400 ≤ status then
        if status < 500 then
          (Except.error (some (HTTPError.statusError status)), attempt + 1, sleeps)
        else
          let sleeps' := if attempt < maxRetries - 1 then sleeps ++ [2 ^ attempt] else sleeps
          firecrawlRetryGo respond maxRetries remaining (attempt + 1)
            (some (HTTPError.statusError status)) sleeps'
      else
        (Except.ok status, attempt + 1, sleeps)
    | HTTPOutcome.requestError msg =>
      let sleeps' := if attempt < maxRetries - 1 then sleeps ++ [2 ^ attempt] else sleeps
      firecrawlRetryGo respond maxRetries remaining (attempt + 1)
        (some (HTTPError.requestError msg)) sleeps'

/-- Embeds `FirecrawlTool._retry_request` with its default
`max_retries=MAX_RETRIES=3`; `remaining` starts at `max_retries`. -/
def firecrawl_retry_request (respond : Nat → HTTPOutcome) (max_retries : Nat := 3) :
    Except (Option HTTPError) Nat × Nat × List Nat :=
  firecrawlRetryGo respond max_retries max_retries 0 none []

/-! ## Scraper content handling (playwright_scraper.py, firecrawl_tool.py) -/

/-- Mirrors Python `str.endswith(p)`. -/
def pyEndsWith (s p : String) : Bool := p.data.isSuffixOf s.data

/-- Mirrors Python `s.split(c)` for a single-character separator. -/
def splitOnCharAux (sep : Char) : List Char → List Char → List String
  | [], cur => [⟨cur.reverse⟩]
  | c :: rest, cur =>
    if c = sep then ⟨cur.reverse⟩ :: splitOnCharAux sep rest []
    else splitOnCharAux sep rest (c :: cur)

/-- Mirrors Python `s.split(c)`. -/
def splitOnChar (sep : Char) (s : String) : List String := splitOnCharAux sep s.data []

/-- Mirrors Python `s.replace(pat, repl)` (all occurrences); the fuel
argument starts at the list length, which bounds the number of steps. -/
def pyReplaceAux (pat repl : List Char) : Nat → List Char → List Char
  | _, [] => []
  | 0, l => l
  | fuel + 1, c :: rest =>
    if pat.isPrefixOf (c :: rest) ∧ pat ≠ [] then
      repl ++ pyReplaceAux pat repl fuel (rest.drop (pat.length - 1))
    else
      c :: pyReplaceAux pat repl fuel rest

/-- Mirrors Python `s.replace(pat, repl)`. -/
def pyReplace (s pat repl : String) : String :=
  ⟨pyReplaceAux pat.data repl.data s.data.length s.data⟩

/-- Embeds the per-line skip test of `PlaywrightScraper._clean_markdown`
(playwright_scraper.py lines 281-289). -/
def cleanSkipLine (cleaned : List String) (line : String) : Bool :=
  (cleaned.isEmpty && (pyStrip line).isEmpty) ||
  (pyStartsWith (pyStrip line) "[" && pyEndsWith (pyStrip line) ")" &&
    (pyStrip line).length < 50)

/-- Embeds the accumulation loop of `_clean_markdown`. -/
def cleanFold (cleaned : List String) : List String → List String
  | [] => cleaned
  | line :: rest =>
    if cleanSkipLine cleaned line then cleanFold cleaned rest
    else cleanFold (cleaned ++ [line]) rest

/-- Embeds the trailing-blank-line removal of `_clean_markdown`. -/
def dropTrailingBlank (l : List String) : List String :=
  (l.reverse.dropWhile (fun s => (pyStrip s).isEmpty)).reverse

/-- Embeds `PlaywrightScraper._clean_markdown`. -/
def clean_markdown (markdown : String) : String :=
  String.intercalate "\n" (dropTrailingBlank (cleanFold [] (splitOnChar '\n' markdown)))

/-- Embeds the validation and result construction of
`PlaywrightScraper.scrape_page` (playwright_scraper.py lines 156-170),
applied to the already-cleaned markdown. -/
def playwright_page_finalize (url title cleaned_markdown html_content : String) :
    ScrapeResult :=
  if cleaned_markdown.isEmpty || (pyStrip cleaned_markdown).length < 50 then
    { url := url, success := false, error := some "Scraped content too short or empty" }
  else
    { url := url, success := true, markdown := some cleaned_markdown,
      html := some html_content, title := some title }

/-- Embeds the markdown-production tail of `scrape_page`
(playwright_scraper.py lines 150-170): html2text conversion is the oracle
input, then `_clean_markdown`, then validation. -/
def playwright_page_render (url title markdown html_content : String) : ScrapeResult :=
  playwright_page_finalize url title (clean_markdown markdown) html_content

/-- base64.b64encode is a Python stdlib function external to this
repository; it is modelled as an injective rendering of the byte list. -/
def b64encode (bytes : List Nat) : String := toString bytes

/-- Embeds the PDF title derivation `url.split("/")[-1].replace(".pdf", "")`
(playwright_scraper.py lines 240, 254). -/
def pdfTitleOf (url : String) : String :=
  pyReplace ((splitOnChar '/' url).getLastD "") ".pdf" ""

/-- Embeds the result construction of `PlaywrightScraper.scrape_pdf`
(playwright_scraper.py lines 230-263): `pdf_content` is the payload the
response handler captured, `response_ok` whether `page.goto` returned a
non-null OK response, `response_body` its body where `none` also covers the
swallowed inner exception. -/
def playwright_pdf_decide (url : String) (pdf_content : Option (List Nat))
    (response_ok : Bool) (response_body : Option (List Nat)) : ScrapeResult :=
  let captured_good :=
    match pdf_content with
    | some c => !c.isEmpty && decide (100 < c.length)
    | none => false
  if captured_good then
    { url := url, success := true,
      markdown := some ("PDF_BASE64:" ++ b64encode ((pdf_content).getD []))
      title := some (pdfTitleOf url) }
  else
    let body_good :=
      response_ok &&
      (match response_body with
       | some b => !b.isEmpty && decide (100 < b.length)
       | none => false)
    if body_good then
      { url := url, success := true,
        markdown := some ("PDF_BASE64:" ++ b64encode ((response_body).getD []))
        title := some (pdfTitleOf url) }
    else
      { url := url, success := false, error := some "Could not download PDF content" }

/-- Parsed response data consumed by `FirecrawlTool.scrape_page` and
`scrape_pdf`: `data.get("success")`, `data.get("error", ...)`,
`data.get("data", {}).get("markdown", "")` and the resolved title. -/
structure FirecrawlData where
  success : Bool
  error : Option String := none
  markdown : String := ""
  title : String := ""
deriving DecidableEq, Repr

/-- Embeds the response handling of `FirecrawlTool.scrape_page`
(firecrawl_tool.py lines 130-156). -/
def firecrawl_page_parse (url : String) (d : FirecrawlData) : ScrapeResult :=
  if !d.success then
    { url := url, success := false, error := some (d.error.getD "Unknown error") }
  else if d.markdown.isEmpty || (pyStrip d.markdown).length < 50 then
    { url := url, success := false, error := some "Scraped content too short or empty" }
  else
    { url := url, success := true, markdown := some d.markdown, title := some d.title }

/-- Embeds the response handling of `FirecrawlTool.scrape_pdf`
(firecrawl_tool.py lines 192-219). -/
def firecrawl_pdf_parse (url : String) (d : FirecrawlData) : ScrapeResult :=
  if !d.success then
    { url := url, success := false, error := some (d.error.getD "Unknown error") }
  else if d.markdown.isEmpty || (pyStrip d.markdown).length < 100 then
    { url := url, success := false, error := some "PDF content extraction too short or empty" }
  else
    { url := url, success := true, markdown := some d.markdown, title := some d.title }

/-! ## Full Playwright scrape functions over an internal-step oracle -/

/-- Internal awaited steps of `PlaywrightScraper.scrape_page`; each
`Except` value is a step that may raise, answered by the oracle. -/
structure PwPageEnv where
  ensure_browser : Except String Unit
  new_context : Except String Unit
  new_page : Except String Unit
  goto : Except String Unit
  poll_content : Nat → Except String String
  wait_selector : Except String Unit
  page_title : Except String String
  selector_html : Option String
  page_content : Except String String
  body_html : Except String (Option String)
  h2t_handle : String → String
  cleanup : Except String Unit

/-- Embeds the bot-challenge polling loop (playwright_scraper.py lines
103-108 and 223-228): up to 10 content polls (`fuel` starts at 10, `i` is
the poll index), stopping at the first poll without a challenge marker; a
poll that raises propagates. -/
def challengeGo (poll : Nat → Except String String) : Nat → Nat → Except String Unit
  | 0, _ => Except.ok ()
  | fuel + 1, i =>
    match poll i with
    | Except.error e => Except.error e
    | Except.ok content =>
      if pyContains content "Verify you are human" ||
         pyContains (pyLower content) "checking your browser" then
        challengeGo poll fuel (i + 1)
      else
        Except.ok ()

/-- Embeds a Python `try`/`finally`: the cleanup runs after the body and
its own exception, if any, replaces the body's result. -/
def finallyCombine {α : Type} (body : Except String α) (cleanup : Except String Unit) :
    Except String α :=
  match cleanup with
  | Except.error e => Except.error e
  | Except.ok _ => body

/-- Embeds the inner `try` body of `scrape_page` (playwright_scraper.py
lines 97-170). -/
def pw_scrape_page_inner (env : PwPageEnv) (url : String)
    (wait_for_selector : Option String) : Except String ScrapeResult := do
  let _ ← env.goto
  let _ ← challengeGo env.poll_content 10 0
  let _ ←
    match wait_for_selector with
    | some _ => env.wait_selector
    | none => Except.ok ()
  let title ← env.page_title
  let html_content ←
    if !pyTruthy env.selector_html then do
      let full ← env.page_content
      match ← env.body_html with
      | some b => pure b
      | none => pure full
    else
      pure (env.selector_html.getD "")
  pure (playwright_page_render url title (env.h2t_handle html_content) html_content)

/-- Embeds the outer `try` body of `scrape_page` (setup, inner
`try`/`finally`). -/
def pw_scrape_page_try (env : PwPageEnv) (url : String)
    (wait_for_selector : Option String) : Except String ScrapeResult := do
  let _ ← env.ensure_browser
  let _ ← env.new_context
  let _ ← env.new_page
  finallyCombine (pw_scrape_page_inner env url wait_for_selector) env.cleanup

/-- Embeds `PlaywrightScraper.scrape_page` including its
`except Exception` wrapper (playwright_scraper.py lines 176-181). -/
def pw_scrape_page (env : PwPageEnv) (url : String)
    (wait_for_selector : Option String := none) : ScrapeResult :=
  match pw_scrape_page_try env url wait_for_selector with
  | Except.ok r => r
  | Except.error e => { url := url, success := false, error := some e }

/-- Internal awaited steps of `PlaywrightScraper.scrape_pdf`. -/
structure PwPdfEnv where
  ensure_browser : Except String Unit
  new_context : Except String Unit
  new_page : Except String Unit
  goto : Except String Bool
  poll_content : Nat → Except String String
  captured_pdf : Option (List Nat)
  response_body : Option (List Nat)
  cleanup : Except String Unit

/-- Embeds the inner `try` body of `scrape_pdf` (playwright_scraper.py
lines 205-263): navigation (returning whether the response is non-null and
OK), the challenge poll loop, then the captured/fallback decision. -/
def pw_scrape_pdf_inner (env : PwPdfEnv) (url : String) : Except String ScrapeResult := do
  let response_ok ← env.goto
  let _ ← challengeGo env.poll_content 10 0
  pure (playwright_pdf_decide url env.captured_pdf response_ok env.response_body)

/-- Embeds the outer `try` body of `scrape_pdf`. -/
def pw_scrape_pdf_try (env : PwPdfEnv) (url : String) : Except String ScrapeResult := do
  let _ ← env.ensure_browser
  let _ ← env.new_context
  let _ ← env.new_page
  finallyCombine (pw_scrape_pdf_inner env url) env.cleanup

/-- Embeds `PlaywrightScraper.scrape_pdf` including its `except Exception`
wrapper (playwright_scraper.py lines 269-274). -/
def pw_scrape_pdf (env : PwPdfEnv) (url : String) : ScrapeResult :=
  match pw_scrape_pdf_try env url with
  | Except.ok r => r
  | Except.error e => { url := url, success := false, error := some e }

/-! ## Concrete fixtures used to instantiate the theorems -/

/-- The `design-guidelines` source (the last entry of `PLANNING_SOURCES`,
also the spec's running example). -/
def srcW : PlanningSource :=
  { id := "design-guidelines"
    url := "https://city.milwaukee.gov/DCD/Planning/UrbanDesign/DesignGuidelines"
    title := "Urban Design Guidelines"
    content_type := ContentType.html
    sync_frequency := SyncFrequency.weekly
    category := "design-guidelines"
    description := some "City design guidelines for development projects" }

/-- An 84-character page body (above the 50-character page threshold). -/
def mdW : String :=
  "This is a page with at least eighty characters of real content for the test run ok!"

/-- Oracle for a run where every collaborator call succeeds. -/
def envHappyW : Env :=
  { scrapePage := fun url =>
      Except.ok { url := url, success := true, markdown := some mdW, title := some "T" }
    scrapePdf := fun url =>
      Except.ok { url := url, success := true, markdown := some mdW, title := some "T" }
    getDocumentErr := fun _ => none
    checkHashErr := fun _ => none
    upsertErr := fun _ => none
    updateStatusErr := fun _ _ => none
    getOrCreateStore := Except.ok "fileSearchStores/store1"
    uploadPdf := fun _ _ => Except.ok { success := true, file_uri := some "files/doc1" }
    uploadMarkdown := fun _ _ => Except.ok { success := true, file_uri := some "files/doc1" } }

/-- A scrape failure result (a returned failure, not a raised exception). -/
def scrapeFailResW (url : String) : ScrapeResult :=
  { url := url, success := false, error := some "HTTP 403" }

/-- Oracle where the page fetch reports a scrape failure. -/
def envScrapeFailW : Env :=
  { envHappyW with scrapePage := fun url => Except.ok (scrapeFailResW url) }

/-- Oracle where the page fetch raises and every status update also raises
(metadata store unreachable). -/
def envBoomW : Env :=
  { envHappyW with
    scrapePage := fun _ => Except.error "boom"
    updateStatusErr := fun _ _ => some "convex down" }

/-- Oracle where every page fetch raises but status updates succeed. -/
def envRaiseW : Env :=
  { envHappyW with scrapePage := fun _ => Except.error "boom" }

/-- The scrape result `envHappyW` returns for `srcW`. -/
def resW : ScrapeResult :=
  { url := srcW.url, success := true, markdown := some mdW, title := some "T" }

/-- A stored record for `design-guidelines` whose fingerprint matches
`mdW`, as left behind by a previous successful sync. -/
def docW : ConvexDoc :=
  { sourceId := "design-guidelines"
    sourceUrl := srcW.url
    title := srcW.title
    contentType := "html"
    category := "design-guidelines"
    syncFrequency := "weekly"
    contentHash := compute_content_hash mdW
    status := "indexed" }

/-- Initial state with an empty metadata store. -/
def stEmptyW : AgentState := { store := [] }

/-- Playwright page oracle whose very first awaited step raises. -/
def pwPageEnvFailW : PwPageEnv :=
  { ensure_browser := Except.error "browser crashed"
    new_context := Except.ok ()
    new_page := Except.ok ()
    goto := Except.ok ()
    poll_content := fun _ => Except.ok "page"
    wait_selector := Except.ok ()
    page_title := Except.ok "T"
    selector_html := some "<p>hi</p>"
    page_content := Except.ok "full"
    body_html := Except.ok none
    h2t_handle := fun h => h
    cleanup := Except.ok () }

/-- Playwright page oracle for a fully successful scrape whose converted
markdown is `mdW`. -/
def pwPageEnvOkW : PwPageEnv :=
  { pwPageEnvFailW with
    ensure_browser := Except.ok ()
    h2t_handle := fun _ => mdW }

/-- Playwright PDF oracle whose very first awaited step raises. -/
def pwPdfEnvFailW : PwPdfEnv :=
  { ensure_browser := Except.error "browser crashed"
    new_context := Except.ok ()
    new_page := Except.ok ()
    goto := Except.ok true
    poll_content := fun _ => Except.ok "page"
    captured_pdf := none
    response_body := none
    cleanup := Except.ok () }

/-- Playwright PDF oracle that captures a 101-byte payload. -/
def pwPdfEnvOkW : PwPdfEnv :=
  { pwPdfEnvFailW with
    ensure_browser := Except.ok ()
    captured_pdf := some (List.replicate 101 37) }

/-- Initial state whose store already holds `docW`. -/
def stHitW : AgentState := { store := [docW] }

/-! ## Run equations for the monad -/

lemma M.run_bind {α β : Type} (x : M α) (f : α → M β) (st : AgentState) :
    (x >>= f) st =
      match x st with
      | (Except.ok a, st') => f a st'
      | (Except.error e, st') => (Except.error e, st') := rfl

lemma M.run_pure {α : Type} (a : α) (st : AgentState) :
    (pure a : M α) st = (Except.ok a, st) := rfl

lemma M.run_tryCatch {α : Type} (x : M α) (h : String → M α) (st : AgentState) :
    M.tryCatch x h st =
      match x st with
      | (Except.ok a, st') => (Except.ok a, st')
      | (Except.error e, st') => h e st' := rfl

/-! ## C5 — unchanged content is skipped with no writes -/

/-- C5: for every source synced without force whose fetch succeeds and
whose fingerprint check reports an existing record with an unchanged hash,
`sync_source` returns a `Skipped` outcome (`success = true`, message
"Content unchanged") and the run issues exactly the fetch call and the
hash-check call: no upsert, no status update, no store resolution and no
publish call, and the metadata store is left untouched. -/
theorem C5_skip_path_no_writes (env : Env) (source : PlanningSource) (st : AgentState)
    (res : ScrapeResult) (d : ConvexDoc)
    (hscrape : (if source.content_type = ContentType.html
        then env.scrapePage source.url else env.scrapePdf source.url) = Except.ok res)
    (hsucc : res.success = true)
    (hchk : env.checkHashErr source.id = none)
    (hget : storeGet st.store source.id = some d)
    (hhash : d.contentHash = compute_content_hash (res.markdown.getD "")) :
    sync_source env source false st =
      (Except.ok { source_id := source.id, success := true, action := "skipped",
                   message := some "Content unchanged" },
       { st with trace := st.trace ++
          [if source.content_type = ContentType.html
             then Call.scrapePage source.url else Call.scrapePdf source.url,
           Call.checkHash source.id (compute_content_hash (res.markdown.getD ""))] }) := by
  cases hct : source.content_type <;>
    simp only [hct, reduceCtorEq, ite_true, ite_false] at hscrape ⊢ <;>
    simp [sync_source, sync_source_body, M.tryCatch, Bind.bind, M.bind, Pure.pure, M.pure,
      scrape_page, scrape_pdf, check_content_hash, storeCheckHash,
      hct, hscrape, hsucc, hchk, hget, hhash]

/-- Witness for C5 at the fixtures: second identical run over `stHitW`. -/
theorem C5_skip_path_no_writes_witness :
    sync_source envHappyW srcW false stHitW =
      (Except.ok { source_id := srcW.id, success := true, action := "skipped",
                   message := some "Content unchanged" },
       { stHitW with trace := stHitW.trace ++
          [if srcW.content_type = ContentType.html
             then Call.scrapePage srcW.url else Call.scrapePdf srcW.url,
           Call.checkHash srcW.id (compute_content_hash (resW.markdown.getD ""))] }) :=
  C5_skip_path_no_writes envHappyW srcW stHitW resW docW rfl rfl rfl rfl rfl

/-! ## C6 — fetch failure records an error status only for an existing record -/

/-- C6: for every source whose fetch step fails, `sync_source` emits a
`Failed` outcome carrying the scrape error; when no record for the source
exists the run issues only the fetch call and the existence lookup (in
particular no status update), and when a record exists it additionally
issues exactly one error status update. -/
theorem C6_fetch_failure_status_only_if_exists (env : Env) (source : PlanningSource)
    (st : AgentState) (force : Bool) (res : ScrapeResult)
    (hscrape : (if source.content_type = ContentType.html
        then env.scrapePage source.url else env.scrapePdf source.url) = Except.ok res)
    (hres : res.success = false)
    (hget : env.getDocumentErr source.id = none) :
    (storeGet st.store source.id = none →
      sync_source env source force st =
        (Except.ok { source_id := source.id, success := false, action := "error",
                     message := res.error },
         { st with trace := st.trace ++
            [if source.content_type = ContentType.html
               then Call.scrapePage source.url else Call.scrapePdf source.url,
             Call.getDocument source.id] })) ∧
    (∀ d, storeGet st.store source.id = some d →
      env.updateStatusErr source.id "error" = none →
      sync_source env source force st =
        (Except.ok { source_id := source.id, success := false, action := "error",
                     message := res.error },
         { st with
            trace := st.trace ++
              [if source.content_type = ContentType.html
                 then Call.scrapePage source.url else Call.scrapePdf source.url,
               Call.getDocument source.id, Call.updateStatus source.id "error"],
            store := storeUpdateStatus st.store source.id "error" res.error none none })) := by
  constructor
  · intro h0
    cases hct : source.content_type <;>
      simp only [hct, reduceCtorEq, ite_true, ite_false] at hscrape ⊢ <;>
      simp [sync_source, sync_source_body, M.tryCatch, Bind.bind, M.bind, Pure.pure, M.pure,
        scrape_page, scrape_pdf, get_document, hct, hscrape, hres, hget, h0]
  · intro d hd hupd
    cases hct : source.content_type <;>
      simp only [hct, reduceCtorEq, ite_true, ite_false] at hscrape ⊢ <;>
      simp [sync_source, sync_source_body, M.tryCatch, Bind.bind, M.bind, Pure.pure, M.pure,
        scrape_page, scrape_pdf, get_document, update_status,
        hct, hscrape, hres, hget, hd, hupd]

/-- Witness for C6 at the fixtures: a failing fetch over the empty store
(no status update) and over a store holding `docW` (one status update). -/
theorem C6_fetch_failure_witness :
    sync_source envScrapeFailW srcW false stEmptyW =
      (Except.ok { source_id := srcW.id, success := false, action := "error",
                   message := (scrapeFailResW srcW.url).error },
       { stEmptyW with trace := stEmptyW.trace ++
          [if srcW.content_type = ContentType.html
             then Call.scrapePage srcW.url else Call.scrapePdf srcW.url,
           Call.getDocument srcW.id] }) ∧
    sync_source envScrapeFailW srcW false stHitW =
      (Except.ok { source_id := srcW.id, success := false, action := "error",
                   message := (scrapeFailResW srcW.url).error },
       { stHitW with
          trace := stHitW.trace ++
            [if srcW.content_type = ContentType.html
               then Call.scrapePage srcW.url else Call.scrapePdf srcW.url,
             Call.getDocument srcW.id, Call.updateStatus srcW.id "error"],
          store := storeUpdateStatus stHitW.store srcW.id "error"
            (scrapeFailResW srcW.url).error none none }) :=
  ⟨(C6_fetch_failure_status_only_if_exists envScrapeFailW srcW stEmptyW false
      (scrapeFailResW srcW.url) rfl rfl rfl).1 rfl,
   (C6_fetch_failure_status_only_if_exists envScrapeFailW srcW stHitW false
      (scrapeFailResW srcW.url) rfl rfl rfl).2 docW rfl rfl⟩

/-! ## C1 — Created versus Updated at the finalizing step -/

/-- C1: evaluating the code at the claim's own scenario — the first
successful sync of a never-synced source (empty metadata store, successful
fetch, upsert and publish) — returns action `"updated"`, not `"created"`:
the existence check of the finalizing step runs after the step-4 upsert has
already created the record, so the record is always found. -/
theorem C1_first_sync_returns_updated :
    storeGet stEmptyW.store srcW.id = none ∧
    (sync_source envHappyW srcW false stEmptyW).1 =
      Except.ok { source_id := srcW.id, success := true, action := "updated",
                  message := some "Successfully updated" } :=
  ⟨rfl, rfl⟩

/-! ## C8 — sync_single on an unknown source id -/

/-- C8 as stated is false: the outcome message for an unknown id is
"Source not found: " followed by the id, not the bare string
"Source not found". -/
theorem C8_counterexample :
    (sync_single envHappyW "bogus" false stEmptyW).1 =
      Except.ok { source_id := "bogus", success := false, action := "error",
                  message := some "Source not found: bogus" } ∧
    some "Source not found: bogus" ≠ some "Source not found" :=
  ⟨rfl, by decide⟩

/-- C8 amended: for every id not in the static source list, `sync_single`
returns a `Failed` outcome whose message is "Source not found: " followed
by the id, and the state (store, cache and call trace) is untouched — no
scraper, metadata-store or index call is issued. -/
theorem C8_unknown_source_failed_no_calls (env : Env) (source_id : String)
    (force : Bool) (st : AgentState)
    (h : ∀ s ∈ PLANNING_SOURCES, s.id ≠ source_id) :
    sync_single env source_id force st =
      (Except.ok { source_id := source_id, success := false, action := "error",
                   message := some ("Source not found: " ++ source_id) }, st) := by
  have hfind : PLANNING_SOURCES.find? (fun s => s.id == source_id) = none := by
    rw [List.find?_eq_none]
    intro s hs
    simpa using h s hs
  simp [sync_single, hfind, Pure.pure, M.pure, toString, String.append_empty]

/-- Witness for C8 at a concrete unknown id. -/
theorem C8_unknown_source_witness :
    sync_single envHappyW "bogus" false stEmptyW =
      (Except.ok { source_id := "bogus", success := false, action := "error",
                   message := some ("Source not found: " ++ "bogus") }, stEmptyW) :=
  C8_unknown_source_failed_no_calls envHappyW "bogus" false stEmptyW (by decide)

/-! ## C2 — batch resilience -/

/-- Run of the exception handler of `sync_source` when its own status
update succeeds. -/
lemma sync_source_handler_run (env : Env) (source : PlanningSource) (e : String)
    (st : AgentState) (h : env.updateStatusErr source.id "error" = none) :
    sync_source_handler env source e st =
      (Except.ok { source_id := source.id, success := false, action := "error",
                   message := some e },
       { st with trace := st.trace ++ [Call.updateStatus source.id "error"],
                 store := storeUpdateStatus st.store source.id "error" (some e) none none }) := by
  simp [sync_source_handler, Bind.bind, M.bind, Pure.pure, M.pure, update_status, h]

/-- When the handler's status update cannot raise, `sync_source` always
returns an outcome. -/
lemma sync_source_ok (env : Env) (source : PlanningSource) (force : Bool)
    (st : AgentState) (h : env.updateStatusErr source.id "error" = none) :
    ∃ r st', sync_source env source force st = (Except.ok r, st') := by
  rcases hb : sync_source_body env source force st with ⟨res, st1⟩
  cases res with
  | ok a =>
    refine ⟨a, st1, ?_⟩
    simp [sync_source, M.tryCatch, hb]
  | error e =>
    refine ⟨{ source_id := source.id, success := false, action := "error", message := some e },
      { st1 with trace := st1.trace ++ [Call.updateStatus source.id "error"],
                 store := storeUpdateStatus st1.store source.id "error" (some e) none none }, ?_⟩
    simp [sync_source, M.tryCatch, hb, sync_source_handler_run env source e st1 h]

/-- The per-source loop produces one outcome per input source when the
handler's status updates cannot raise. -/
lemma sync_list_ok (env : Env) (force : Bool)
    (h : ∀ source_id status, env.updateStatusErr source_id status = none) :
    ∀ (sources : List PlanningSource) (st : AgentState),
      ∃ rs st', sync_list env sources force st = (Except.ok rs, st') ∧
        rs.length = sources.length := by
  intro sources
  induction sources with
  | nil => exact fun st => ⟨[], st, rfl, rfl⟩
  | cons s rest ih =>
    intro st
    obtain ⟨r, st1, hr⟩ := sync_source_ok env s force st (h s.id "error")
    obtain ⟨rs, st2, hrs, hlen⟩ := ih st1
    refine ⟨r :: rs, st2, ?_, by simp [hlen]⟩
    simp [sync_list, Bind.bind, M.bind, Pure.pure, M.pure, hr, hrs]

/-- C2 as stated is false: in a batch over the seven configured sources,
making the first source's fetch raise while the metadata store is also
unreachable (so the handler's own error-status update raises) aborts the
whole batch — no outcome list is produced at all, instead the status
update's exception escapes `sync_all`. -/
theorem C2_counterexample :
    PLANNING_SOURCES.length = 7 ∧
    (sync_all envBoomW false stEmptyW).1 = Except.error "convex down" :=
  ⟨rfl, rfl⟩

/-- C2 amended: provided the error-status updates issued by the exception
handler cannot themselves raise, `sync_all` and `sync_by_frequency` return
exactly one outcome per selected source, and any exception raised while
processing one source is converted into a `Failed` outcome for that source;
a failure of the handler's own status update, however, propagates (see the
counterexample). -/
theorem C2_batch_resilience_amended (env : Env) (force : Bool) (st : AgentState)
    (freq : SyncFrequency)
    (h : ∀ source_id status, env.updateStatusErr source_id status = none) :
    (∃ summary st', sync_all env force st = (Except.ok summary, st') ∧
       summary.results.length = PLANNING_SOURCES.length) ∧
    (∃ summary st', sync_by_frequency env freq force st = (Except.ok summary, st') ∧
       summary.results.length =
         (PLANNING_SOURCES.filter (fun s => s.sync_frequency == freq)).length) ∧
    (∀ source e st1 st2, sync_source_body env source force st1 = (Except.error e, st2) →
       ∃ st3, sync_source env source force st1 =
         (Except.ok { source_id := source.id, success := false, action := "error",
                      message := some e }, st3)) := by
  refine ⟨?_, ?_, ?_⟩
  · obtain ⟨rs, st', hrs, hlen⟩ := sync_list_ok env force h PLANNING_SOURCES st
    exact ⟨mk_summary rs, st',
      by simp [sync_all, Bind.bind, M.bind, Pure.pure, M.pure, hrs],
      by simp [mk_summary, hlen]⟩
  · obtain ⟨rs, st', hrs, hlen⟩ := sync_list_ok env force h
      (PLANNING_SOURCES.filter (fun s => s.sync_frequency == freq)) st
    exact ⟨mk_summary rs, st',
      by simp [sync_by_frequency, Bind.bind, M.bind, Pure.pure, M.pure, hrs],
      by simp [mk_summary, hlen]⟩
  · intro source e st1 st2 hb
    refine ⟨(sync_source_handler env source e st2).2, ?_⟩
    simp only [sync_source, M.tryCatch, hb]
    rw [sync_source_handler_run env source e st2 (h source.id "error")]

/-- Witness for C2 amended: every fetch raises, status updates succeed. -/
theorem C2_batch_resilience_witness :
    (∃ summary st', sync_all envRaiseW false stEmptyW = (Except.ok summary, st') ∧
       summary.results.length = PLANNING_SOURCES.length) ∧
    (∃ summary st', sync_by_frequency envRaiseW SyncFrequency.weekly false stEmptyW =
         (Except.ok summary, st') ∧
       summary.results.length =
         (PLANNING_SOURCES.filter
           (fun s => s.sync_frequency == SyncFrequency.weekly)).length) ∧
    (∀ source e st1 st2,
       sync_source_body envRaiseW source false st1 = (Except.error e, st2) →
       ∃ st3, sync_source envRaiseW source false st1 =
         (Except.ok { source_id := source.id, success := false, action := "error",
                      message := some e }, st3)) :=
  C2_batch_resilience_amended envRaiseW false stEmptyW SyncFrequency.weekly
    (fun _ _ => rfl)

/-! ## C3 — 4xx handling in the two retry loops -/

/-- C3 as stated is false: in the metadata-store client
(`ConvexHTTPClient._retry_request`) HTTP 429 is not an exception — it is
raised immediately like every other 4xx, after a single attempt and with no
sleep. -/
theorem C3_counterexample :
    convex_retry_request (fun _ => HTTPOutcome.response 429 (some 5)) =
      (Except.error (some (HTTPError.statusError 429)), 1, ([] : List Nat)) ∧
    ¬ 2 ≤ (convex_retry_request (fun _ => HTTPOutcome.response 429 (some 5))).2.1 :=
  ⟨rfl, by decide⟩

/-- C3 amended: a 4xx response on the first request propagates immediately
(one attempt, no sleep) in the metadata-store client for every 4xx
including 429, and in the scraping client for every 4xx except 429; only
the scraping client retries 429, sleeping for the `Retry-After` hint
(default 60 s) and continuing with the next attempt, `last_error`
untouched. -/
theorem C3_4xx_no_retry_amended (respond : Nat → HTTPOutcome) (status : Nat)
    (ra : Option Nat) :
    (respond 0 = HTTPOutcome.response status ra → 400 ≤ status → status < 500 →
      convex_retry_request respond =
        (Except.error (some (HTTPError.statusError status)), 1, [])) ∧
    (respond 0 = HTTPOutcome.response status ra → 400 ≤ status → status < 500 →
      status ≠ 429 →
      firecrawl_retry_request respond =
        (Except.error (some (HTTPError.statusError status)), 1, [])) ∧
    (respond 0 = HTTPOutcome.response 429 ra →
      firecrawl_retry_request respond =
        firecrawlRetryGo respond 3 2 1 none [ra.getD 60]) := by
  refine ⟨fun h0 h400 h500 => ?_, fun h0 h400 h500 h429 => ?_, fun h0 => ?_⟩
  · simp only [convex_retry_request, convexRetryGo, h0]
    rw [if_pos h400, if_pos h500]
  · simp only [firecrawl_retry_request, firecrawlRetryGo, h0]
    rw [if_neg h429, if_pos h400, if_pos h500]
  · simp [firecrawl_retry_request, firecrawlRetryGo, h0]

/-- Witness for C3 amended at concrete responders. -/
theorem C3_4xx_no_retry_witness :
    convex_retry_request (fun _ => HTTPOutcome.response 400 none) =
      (Except.error (some (HTTPError.statusError 400)), 1, []) ∧
    firecrawl_retry_request (fun _ => HTTPOutcome.response 404 none) =
      (Except.error (some (HTTPError.statusError 404)), 1, []) ∧
    firecrawl_retry_request
        (fun i => if i = 0 then HTTPOutcome.response 429 (some 7)
                  else HTTPOutcome.response 200 none) =
      firecrawlRetryGo
        (fun i => if i = 0 then HTTPOutcome.response 429 (some 7)
                  else HTTPOutcome.response 200 none) 3 2 1 none [(some 7).getD 60] :=
  ⟨(C3_4xx_no_retry_amended (fun _ => HTTPOutcome.response 400 none) 400 none).1
      rfl (by decide) (by decide),
   (C3_4xx_no_retry_amended (fun _ => HTTPOutcome.response 404 none) 404 none).2.1
      rfl (by decide) (by decide) (by decide),
   (C3_4xx_no_retry_amended
      (fun i => if i = 0 then HTTPOutcome.response 429 (some 7)
                else HTTPOutcome.response 200 none) 429 (some 7)).2.2 rfl⟩

/-! ## C4 — retry bound and backoff delays on persistent 5xx -/

/-- C4 as stated is false: with three attempts there are only two
inter-attempt backoff sleeps, of 1 s and 2 s; the 4 s delay never occurs. -/
theorem C4_counterexample :
    convex_retry_request (fun _ => HTTPOutcome.response 500 none) =
      (Except.error (some (HTTPError.statusError 500)), 3, [1, 2]) ∧
    (convex_retry_request (fun _ => HTTPOutcome.response 500 none)).2.2 ≠ [1, 2, 4] :=
  ⟨rfl, by decide⟩

/-- C4 amended: a call that always fails with a 5xx is attempted exactly 3
times, with backoff delays of 2^attempt seconds after attempts 0 and 1
(1 s then 2 s) and no delay after the last attempt, after which the error
observed on the last attempt is raised; the same holds in both clients. -/
theorem C4_retry_bound_amended (respond : Nat → HTTPOutcome)
    (h : ∀ i, i < 3 → ∃ s ra, respond i = HTTPOutcome.response s ra ∧ 500 ≤ s ∧ s < 600) :
    ∃ s2 ra2, respond 2 = HTTPOutcome.response s2 ra2 ∧
      convex_retry_request respond =
        (Except.error (some (HTTPError.statusError s2)), 3, [1, 2]) ∧
      firecrawl_retry_request respond =
        (Except.error (some (HTTPError.statusError s2)), 3, [1, 2]) := by
  obtain ⟨s0, ra0, h0, h0a, h0b⟩ := h 0 (by omega)
  obtain ⟨s1, ra1, h1, h1a, h1b⟩ := h 1 (by omega)
  obtain ⟨s2, ra2, h2, h2a, h2b⟩ := h 2 (by omega)
  refine ⟨s2, ra2, h2, ?_, ?_⟩
  · simp [convex_retry_request, convexRetryGo, h0, h1, h2,
      show 400 ≤ s0 by omega, show ¬ s0 < 500 by omega,
      show 400 ≤ s1 by omega, show ¬ s1 < 500 by omega,
      show 400 ≤ s2 by omega, show ¬ s2 < 500 by omega]
  · simp [firecrawl_retry_request, firecrawlRetryGo, h0, h1, h2,
      show ¬ s0 = 429 by omega, show ¬ s1 = 429 by omega, show ¬ s2 = 429 by omega,
      show 400 ≤ s0 by omega, show ¬ s0 < 500 by omega,
      show 400 ≤ s1 by omega, show ¬ s1 < 500 by omega,
      show 400 ≤ s2 by omega, show ¬ s2 < 500 by omega]

/-- Witness for C4 amended: a responder that always returns 503. -/
theorem C4_retry_bound_witness :
    ∃ s2 ra2, (fun _ => HTTPOutcome.response 503 none : Nat → HTTPOutcome) 2 =
        HTTPOutcome.response s2 ra2 ∧
      convex_retry_request (fun _ => HTTPOutcome.response 503 none) =
        (Except.error (some (HTTPError.statusError s2)), 3, [1, 2]) ∧
      firecrawl_retry_request (fun _ => HTTPOutcome.response 503 none) =
        (Except.error (some (HTTPError.statusError s2)), 3, [1, 2]) :=
  C4_retry_bound_amended (fun _ => HTTPOutcome.response 503 none)
    (fun _ _ => ⟨503, none, rfl, by omega, by omega⟩)

/-! ## C9 — the four action counts partition every run summary -/

lemma M.bind_run {α β : Type} (x : M α) (f : α → M β) (st : AgentState) :
    M.bind x f st =
      match x st with
      | (Except.ok a, st') => f a st'
      | (Except.error e, st') => (Except.error e, st') := rfl

/-- Every outcome the `try` body of `sync_source` returns carries one of
the four actions. -/
lemma sync_source_body_action (env : Env) (source : PlanningSource) (force : Bool)
    (st st1 : AgentState) (a : SyncResult)
    (hb : sync_source_body env source force st = (Except.ok a, st1)) :
    a.action = "created" ∨ a.action = "updated" ∨
    a.action = "skipped" ∨ a.action = "error" := by
  unfold sync_source_body at hb
  simp only [Bind.bind, Pure.pure, M.bind_run, M.pure, scrape_page, scrape_pdf,
    get_document, check_content_hash, upsert_document, update_status,
    get_store_name, upload_pdf, upload_markdown] at hb
  iterate 40 (all_goals
    (try (first | (split at hb) | (simp only [M.bind_run, M.pure] at hb))))
  all_goals (try (simp only [Prod.mk.injEq, Except.ok.injEq, reduceCtorEq,
    false_and, and_false] at hb))
  all_goals (try (obtain ⟨ha, -⟩ := hb; subst ha; try simp))

/-- Every outcome the exception handler returns carries action "error". -/
lemma sync_source_handler_action (env : Env) (source : PlanningSource) (e : String)
    (st st1 : AgentState) (a : SyncResult)
    (h : sync_source_handler env source e st = (Except.ok a, st1)) :
    a.action = "error" := by
  unfold sync_source_handler at h
  simp only [Bind.bind, Pure.pure, M.bind_run, M.pure, update_status] at h
  split at h <;>
    simp only [Prod.mk.injEq, Except.ok.injEq, reduceCtorEq, false_and, and_false] at h
  obtain ⟨ha, -⟩ := h
  subst ha
  rfl

/-- Every outcome of `sync_source` carries one of the four actions. -/
lemma sync_source_action (env : Env) (source : PlanningSource) (force : Bool)
    (st st1 : AgentState) (a : SyncResult)
    (h : sync_source env source force st = (Except.ok a, st1)) :
    a.action = "created" ∨ a.action = "updated" ∨
    a.action = "skipped" ∨ a.action = "error" := by
  unfold sync_source M.tryCatch at h
  rcases hb : sync_source_body env source force st with ⟨res, st2⟩
  rw [hb] at h
  cases res with
  | ok b =>
    simp only [Prod.mk.injEq, Except.ok.injEq] at h
    obtain ⟨hba, -⟩ := h
    subst hba
    exact sync_source_body_action env source force st st2 b hb
  | error e =>
    exact Or.inr (Or.inr (Or.inr
      (sync_source_handler_action env source e st2 st1 a h)))

/-- Every outcome in a `sync_list` run carries one of the four actions. -/
lemma sync_list_actions (env : Env) (force : Bool) :
    ∀ (sources : List PlanningSource) (st : AgentState) (rs : List SyncResult)
      (st' : AgentState), sync_list env sources force st = (Except.ok rs, st') →
      ∀ r ∈ rs, r.action = "created" ∨ r.action = "updated" ∨
        r.action = "skipped" ∨ r.action = "error" := by
  intro sources
  induction sources with
  | nil =>
    intro st rs st' h r hr
    simp only [sync_list, Pure.pure, M.pure, Prod.mk.injEq, Except.ok.injEq] at h
    obtain ⟨hrs, -⟩ := h
    subst hrs
    exact absurd hr (List.not_mem_nil r)
  | cons s rest ih =>
    intro st rs st' h r hr
    simp only [sync_list, Bind.bind, M.bind_run, Pure.pure, M.pure] at h
    split at h
    · rename_i r1 stA heq1
      split at h
      · rename_i rs2 stB heq2
        simp only [Prod.mk.injEq, Except.ok.injEq] at h
        obtain ⟨hrs, -⟩ := h
        subst hrs
        rcases List.mem_cons.mp hr with hr1 | hr2
        · subst hr1
          exact sync_source_action env s force st stA r heq1
        · exact ih stA rs2 stB heq2 r hr2
      · simp at h
    · simp at h

/-- A list whose members all carry one of the four actions is partitioned
by the four action counts. -/
lemma length_eq_action_counts (l : List SyncResult)
    (h : ∀ r ∈ l, r.action = "created" ∨ r.action = "updated" ∨
      r.action = "skipped" ∨ r.action = "error") :
    l.length =
      l.countP (fun r => r.action == "created") +
      l.countP (fun r => r.action == "updated") +
      l.countP (fun r => r.action == "skipped") +
      l.countP (fun r => r.action == "error") := by
  induction l with
  | nil => simp
  | cons x xs ih =>
    have hx := h x (List.mem_cons_self x xs)
    have ihh := ih (fun r hr => h r (List.mem_cons_of_mem x hr))
    simp only [List.countP_cons, List.length_cons, ihh]
    rcases hx with h1 | h1 | h1 | h1 <;> simp [h1] <;> omega

/-- C9: every summary produced by `sync_all` or `sync_by_frequency`
satisfies `total = created + updated + skipped + failed`, because every
per-source outcome carries exactly one of the four actions. -/
theorem C9_summary_counts_partition (env : Env) (force : Bool) (st : AgentState)
    (freq : SyncFrequency) :
    (∀ summary st', sync_all env force st = (Except.ok summary, st') →
      summary.total = summary.created + summary.updated +
        summary.skipped + summary.failed) ∧
    (∀ summary st', sync_by_frequency env freq force st = (Except.ok summary, st') →
      summary.total = summary.created + summary.updated +
        summary.skipped + summary.failed) := by
  constructor
  · intro summary st' h
    simp only [sync_all, Bind.bind, M.bind_run, Pure.pure, M.pure] at h
    rcases hrs : sync_list env PLANNING_SOURCES force st with ⟨res, stA⟩
    rw [hrs] at h
    cases res with
    | error e => simp at h
    | ok rs =>
      simp only [Prod.mk.injEq, Except.ok.injEq] at h
      obtain ⟨hsum, -⟩ := h
      subst hsum
      simpa [mk_summary] using
        length_eq_action_counts rs (sync_list_actions env force _ st rs stA hrs)
  · intro summary st' h
    simp only [sync_by_frequency, Bind.bind, M.bind_run, Pure.pure, M.pure] at h
    rcases hrs : sync_list env
      (PLANNING_SOURCES.filter (fun s => s.sync_frequency == freq)) force st
      with ⟨res, stA⟩
    rw [hrs] at h
    cases res with
    | error e => simp at h
    | ok rs =>
      simp only [Prod.mk.injEq, Except.ok.injEq] at h
      obtain ⟨hsum, -⟩ := h
      subst hsum
      simpa [mk_summary] using
        length_eq_action_counts rs (sync_list_actions env force _ st rs stA hrs)

set_option maxHeartbeats 2000000 in
/-- One `Failed` outcome per source, as produced by `envScrapeFailW`. -/
theorem C9_summary_counts_witness :
    (mk_summary (PLANNING_SOURCES.map (fun s =>
        { source_id := s.id, success := false, action := "error",
          message := some "HTTP 403" }))).total =
      (mk_summary (PLANNING_SOURCES.map (fun s =>
        { source_id := s.id, success := false, action := "error",
          message := some "HTTP 403" }))).created +
      (mk_summary (PLANNING_SOURCES.map (fun s =>
        { source_id := s.id, success := false, action := "error",
          message := some "HTTP 403" }))).updated +
      (mk_summary (PLANNING_SOURCES.map (fun s =>
        { source_id := s.id, success := false, action := "error",
          message := some "HTTP 403" }))).skipped +
      (mk_summary (PLANNING_SOURCES.map (fun s =>
        { source_id := s.id, success := false, action := "error",
          message := some "HTTP 403" }))).failed :=
  (C9_summary_counts_partition envScrapeFailW false stEmptyW SyncFrequency.weekly).1
    (mk_summary (PLANNING_SOURCES.map (fun s =>
      { source_id := s.id, success := false, action := "error",
        message := some "HTTP 403" })))
    (sync_all envScrapeFailW false stEmptyW).2 (by rfl)

/-! ## C7 — short extracted content is an extraction failure -/

/-- C7: in each scraper and for each content kind, extracted content below
the minimum length threshold produces a failure result with an error
message and no content: pages below 50 characters fail in both backends,
and documents below 100 characters (bytes for the browser download) fail
in both backends. -/
theorem C7_short_content_fails :
    (∀ url title md html_content, (pyStrip (clean_markdown md)).length < 50 →
      playwright_page_render url title md html_content =
        { url := url, success := false,
          error := some "Scraped content too short or empty" }) ∧
    (∀ url d, FirecrawlData.success d = true → (pyStrip d.markdown).length < 50 →
      firecrawl_page_parse url d =
        { url := url, success := false,
          error := some "Scraped content too short or empty" }) ∧
    (∀ url d, FirecrawlData.success d = true → (pyStrip d.markdown).length < 100 →
      firecrawl_pdf_parse url d =
        { url := url, success := false,
          error := some "PDF content extraction too short or empty" }) ∧
    (∀ url pdf_content response_ok response_body,
      (∀ c, pdf_content = some c → List.length c < 100) →
      (∀ b, response_body = some b → List.length b < 100) →
      playwright_pdf_decide url pdf_content response_ok response_body =
        { url := url, success := false,
          error := some "Could not download PDF content" }) := by
  refine ⟨fun url title md html_content h => ?_, fun url d hs h => ?_,
    fun url d hs h => ?_, fun url pdf_content response_ok response_body hc hb => ?_⟩
  · unfold playwright_page_render playwright_page_finalize
    rw [if_pos (by simp [h])]
  · unfold firecrawl_page_parse
    rw [if_neg (by simp [hs]), if_pos (by simp [h])]
  · unfold firecrawl_pdf_parse
    rw [if_neg (by simp [hs]), if_pos (by simp [h])]
  · rcases pdf_content with _ | c
    · rcases response_body with _ | b
      · simp [playwright_pdf_decide]
      · have hb' := hb b rfl
        simp [playwright_pdf_decide, show ¬ (100 < b.length) by omega]
    · have hc' := hc c rfl
      rcases response_body with _ | b
      · simp [playwright_pdf_decide, show ¬ (100 < c.length) by omega]
      · have hb' := hb b rfl
        simp [playwright_pdf_decide, show ¬ (100 < c.length) by omega,
          show ¬ (100 < b.length) by omega]

/-- Witness for C7 at concrete short contents. -/
theorem C7_short_content_witness :
    playwright_page_render "u" "T" "hi" "<p>hi</p>" =
      { url := "u", success := false,
        error := some "Scraped content too short or empty" } ∧
    firecrawl_page_parse "u" { success := true, markdown := "hi" } =
      { url := "u", success := false,
        error := some "Scraped content too short or empty" } ∧
    firecrawl_pdf_parse "u" { success := true, markdown := "tiny pdf text" } =
      { url := "u", success := false,
        error := some "PDF content extraction too short or empty" } ∧
    playwright_pdf_decide "u" (some [37, 80, 68, 70]) true none =
      { url := "u", success := false,
        error := some "Could not download PDF content" } :=
  ⟨C7_short_content_fails.1 "u" "T" "hi" "<p>hi</p>" (by decide),
   C7_short_content_fails.2.1 "u" { success := true, markdown := "hi" } rfl (by decide),
   C7_short_content_fails.2.2.1 "u" { success := true, markdown := "tiny pdf text" }
     rfl (by decide),
   C7_short_content_fails.2.2.2 "u" (some [37, 80, 68, 70]) true none
     (fun c hc => by simp at hc; simp [← hc]) (fun b hb => by simp at hb)⟩

/-! ## C10 — the Playwright scraper never raises and success implies content -/

/-- Validation keeps content exactly on the success branch (page). -/
lemma playwright_page_finalize_markdown (url title c h : String) :
    (playwright_page_finalize url title c h).success = true →
    (playwright_page_finalize url title c h).markdown.isSome := by
  unfold playwright_page_finalize
  split <;> simp

/-- Both branches of an if-then-else on scrape results preserve
"success implies markdown". -/
lemma ite_success_markdown (c : Prop) [Decidable c] (a b : ScrapeResult)
    (ha : a.success = true → a.markdown.isSome)
    (hb : b.success = true → b.markdown.isSome) :
    (if c then a else b).success = true → (if c then a else b).markdown.isSome := by
  by_cases hc : c
  · simp only [if_pos hc]
    exact ha
  · simp only [if_neg hc]
    exact hb

/-- Validation keeps content exactly on the success branches (PDF). -/
lemma playwright_pdf_decide_markdown (url : String) (pdf_content : Option (List Nat))
    (response_ok : Bool) (response_body : Option (List Nat)) :
    (playwright_pdf_decide url pdf_content response_ok response_body).success = true →
    (playwright_pdf_decide url pdf_content response_ok response_body).markdown.isSome := by
  rcases pdf_content with _ | c <;> rcases response_body with _ | b <;>
    unfold playwright_pdf_decide <;>
    exact ite_success_markdown _ _ _ (by simp)
      (ite_success_markdown _ _ _ (by simp) (by simp))

/-- Any `Except.ok` outcome of the `scrape_page` try body with
`success = true` carries markdown. -/
lemma pw_scrape_page_try_ok (env : PwPageEnv) (url : String)
    (wait_for_selector : Option String) (r : ScrapeResult)
    (h : pw_scrape_page_try env url wait_for_selector = Except.ok r) :
    r.success = true → r.markdown.isSome := by
  unfold pw_scrape_page_try pw_scrape_page_inner finallyCombine at h
  simp only [Bind.bind, Except.bind, Pure.pure, Except.pure] at h
  iterate 20 (all_goals
    (try (first | (split at h) | (simp only [Except.bind, Except.pure] at h))))
  all_goals (try (simp only [Except.ok.injEq, reduceCtorEq] at h))
  all_goals (try (subst h; exact playwright_page_finalize_markdown url _ _ _))

/-- Any `Except.ok` outcome of the `scrape_pdf` try body with
`success = true` carries markdown. -/
lemma pw_scrape_pdf_try_ok (env : PwPdfEnv) (url : String) (r : ScrapeResult)
    (h : pw_scrape_pdf_try env url = Except.ok r) :
    r.success = true → r.markdown.isSome := by
  unfold pw_scrape_pdf_try pw_scrape_pdf_inner finallyCombine at h
  simp only [Bind.bind, Except.bind, Pure.pure, Except.pure] at h
  iterate 20 (all_goals
    (try (first | (split at h) | (simp only [Except.bind, Except.pure] at h))))
  all_goals (try (simp only [Except.ok.injEq, reduceCtorEq] at h))
  all_goals (try (subst h; exact playwright_pdf_decide_markdown url _ _ _))

/-- C10: for every URL and every behavior of the browser internals, the
Playwright scraper's `scrape_page` and `scrape_pdf` return a `ScrapeResult`
instead of raising — an internal exception becomes `success = false` with
the error field set — and every result with `success = true` carries a
markdown payload. -/
theorem C10_playwright_never_raises :
    (∀ env url wait_for_selector e,
      pw_scrape_page_try env url wait_for_selector = Except.error e →
      pw_scrape_page env url wait_for_selector =
        { url := url, success := false, error := some e }) ∧
    (∀ env url wait_for_selector,
      (pw_scrape_page env url wait_for_selector).success = true →
      (pw_scrape_page env url wait_for_selector).markdown.isSome) ∧
    (∀ env url e, pw_scrape_pdf_try env url = Except.error e →
      pw_scrape_pdf env url = { url := url, success := false, error := some e }) ∧
    (∀ env url, (pw_scrape_pdf env url).success = true →
      (pw_scrape_pdf env url).markdown.isSome) := by
  refine ⟨fun env url wfs e h => ?_, fun env url wfs => ?_,
    fun env url e h => ?_, fun env url => ?_⟩
  · simp [pw_scrape_page, h]
  · rcases htry : pw_scrape_page_try env url wfs with r | e
    · simp [pw_scrape_page, htry]
    · intro hs
      rw [pw_scrape_page] at hs ⊢
      rw [htry] at hs ⊢
      exact pw_scrape_page_try_ok env url wfs _ htry hs
  · simp [pw_scrape_pdf, h]
  · rcases htry : pw_scrape_pdf_try env url with r | e
    · simp [pw_scrape_pdf, htry]
    · intro hs
      rw [pw_scrape_pdf] at hs ⊢
      rw [htry] at hs ⊢
      exact pw_scrape_pdf_try_ok env url _ htry hs

/-- Witness for C10: a raising oracle is caught for both methods, and a
successful run of each method carries markdown. -/
theorem C10_playwright_witness :
    pw_scrape_page pwPageEnvFailW "u" none =
      { url := "u", success := false, error := some "browser crashed" } ∧
    (pw_scrape_page pwPageEnvOkW "u" none).markdown.isSome ∧
    pw_scrape_pdf pwPdfEnvFailW "u" =
      { url := "u", success := false, error := some "browser crashed" } ∧
    (pw_scrape_pdf pwPdfEnvOkW "u").markdown.isSome :=
  ⟨C10_playwright_never_raises.1 pwPageEnvFailW "u" none "browser crashed" rfl,
   C10_playwright_never_raises.2.1 pwPageEnvOkW "u" none (by rfl),
   C10_playwright_never_raises.2.2.1 pwPdfEnvFailW "u" "browser crashed" rfl,
   C10_playwright_never_raises.2.2.2 pwPdfEnvOkW "u" (by rfl)⟩

end Mkedev
